import Mathlib

/-!
A shallow embedding of the server handlers of the chat application
(`src/server/src/handlers/*.ts` plus the unnamed handler files) over a
relational store modelled as lists of rows.  Serial ids are modelled by
`freshId` (strictly larger than every existing id), timestamps by a logical
clock `DB.now : Nat`, SQL `NULL` by `Option`, and JavaScript truthiness
coercions (`x || y`, `if (x)`) by explicit helpers.  Handlers are pure
functions `DB → Input → Except ChatError (Row × DB)`: an error outcome
carries no state, which models the source behaviour that a thrown error
leaves the store unchanged (each handler either completes all of its writes
or rethrows before/inside them; `createChatRoom` additionally wraps its two
writes in a single transaction).  The JSON `data` payload of a notification
is modelled as a structured value rather than a serialized string.
-/

set_option maxRecDepth 8192

namespace Chat

inductive UserStatus where
  | online
  | offline
  | away
deriving DecidableEq, Repr

inductive MessageType where
  | text
  | image
  | file
  | system
deriving DecidableEq, Repr

inductive RoomRole where
  | admin
  | moderator
  | member
deriving DecidableEq, Repr

inductive NotifType where
  | new_message
  | new_upload
  | new_comment
  | status_update
  | room_invite
deriving DecidableEq, Repr

/-- Payloads attached to notifications (`JSON.stringify` objects), modelled structurally. -/

inductive NotifData where
  | newMessageData (room_id message_id sender_id : Nat)
  | statusUpdateData (user_id : Nat) (username : String)
      (old_status new_status : UserStatus)
  | newCommentData (comment_id upload_id commenter_id : Nat)
deriving DecidableEq, Repr

structure User where
  id : Nat
  username : String
  email : String
  avatar_url : Option String
  status : UserStatus
  created_at : Nat
  updated_at : Nat
deriving DecidableEq, Repr

structure ChatRoom where
  id : Nat
  name : String
  description : Option String
  is_private : Bool
  created_by : Nat
  created_at : Nat
  updated_at : Nat
deriving DecidableEq, Repr

structure Message where
  id : Nat
  room_id : Nat
  user_id : Nat
  content : String
  message_type : MessageType
  file_url : Option String
  reply_to_id : Option Nat
  created_at : Nat
  updated_at : Nat
deriving DecidableEq, Repr

structure RoomMember where
  id : Nat
  room_id : Nat
  user_id : Nat
  role : RoomRole
  joined_at : Nat
deriving DecidableEq, Repr

structure Upload where
  id : Nat
  user_id : Nat
  filename : String
  file_url : String
  file_size : Nat
  file_type : String
  room_id : Option Nat
  created_at : Nat
deriving DecidableEq, Repr

structure Comment where
  id : Nat
  upload_id : Nat
  user_id : Nat
  content : String
  created_at : Nat
  updated_at : Nat
deriving DecidableEq, Repr

structure PushNotification where
  id : Nat
  user_id : Nat
  title : String
  body : String
  type : NotifType
  data : Option NotifData
  is_read : Bool
  created_at : Nat
deriving DecidableEq, Repr

/-- The relational store: one list of rows per table, plus a logical clock
used for `defaultNow()` timestamps. -/

structure DB where
  users : List User
  chatRooms : List ChatRoom
  messages : List Message
  roomMembers : List RoomMember
  uploads : List Upload
  comments : List Comment
  pushNotifications : List PushNotification
  now : Nat
deriving DecidableEq, Repr

/-- Error taxonomy of the handlers (the source throws `Error` with these
message strings; the constructor classifies them per the taxonomy of the design). -/

inductive ChatError where
  | notFound (msg : String)
  | conflict (msg : String)
  | authorization (msg : String)
  | persistence (msg : String)
deriving DecidableEq, Repr

instance [DecidableEq ε] [DecidableEq α] : DecidableEq (Except ε α) := fun x y =>
  match x, y with
  | .error a, .error b => decidable_of_iff (a = b) (by simp)
  | .error _, .ok _ => isFalse (fun hc => Except.noConfusion hc)
  | .ok _, .error _ => isFalse (fun hc => Except.noConfusion hc)
  | .ok a, .ok b => decidable_of_iff (a = b) (by simp)

/-- The next serial id for a table: strictly larger than every existing id. -/

def freshId (ids : List Nat) : Nat :=
  ids.foldr (fun a b => max a b) 0 + 1

/-- JavaScript truthiness of an optional number (`undefined`, `null` and `0`
are falsy). -/

def truthyNum : Option Nat → Bool
  | some n => n != 0
  | none => false

/-- Coercion `s || null` on an optional string: `undefined`, `null` and `""` all
coerce to `null`. -/

def strOrNone : Option String → Option String
  | some s => if s = "" then none else some s
  | none => none

/-- First-occurrence deduplication, as `[...new Set(xs)]` does in the source. -/

def dedupFirstAux [DecidableEq α] (seen : List α) : List α → List α
  | [] => []
  | a :: l => if a ∈ seen then dedupFirstAux seen l else a :: dedupFirstAux (a :: seen) l

def dedupFirst [DecidableEq α] (l : List α) : List α :=
  dedupFirstAux [] l

/-! ## Handler inputs (the zod input schemas of `schema.ts`) -/

structure CreateUserInput where
  username : String
  email : String
  avatar_url : Option String := none
  status : Option UserStatus := none
deriving DecidableEq, Repr

structure CreateChatRoomInput where
  name : String
  description : Option String := none
  is_private : Option Bool := none
  created_by : Nat
deriving DecidableEq, Repr

structure CreateMessageInput where
  room_id : Nat
  user_id : Nat
  content : String
  message_type : Option MessageType := none
  file_url : Option String := none
  reply_to_id : Option Nat := none
deriving DecidableEq, Repr

/-- Here `avatar_url` distinguishes an absent field (outer `none`) from an explicit
`null` (inner `none`), since `update_user.ts` tests `!== undefined`. -/

structure UpdateUserInput where
  id : Nat
  username : Option String := none
  email : Option String := none
  avatar_url : Option (Option String) := none
  status : Option UserStatus := none
deriving DecidableEq, Repr

structure CreateCommentInput where
  upload_id : Nat
  user_id : Nat
  content : String
deriving DecidableEq, Repr

structure MarkNotificationReadInput where
  id : Nat
deriving DecidableEq, Repr

structure GetRoomMessagesInput where
  room_id : Nat
  limit : Option Nat := none
  offset : Option Nat := none
deriving DecidableEq, Repr

/-! ## Handlers -/

/-- From `create_user.ts`: insert with defaults applied; the unique constraints on
username/email are enforced by the store and surface as a persistence error. -/

def createUser (db : DB) (input : CreateUserInput) : Except ChatError (User × DB) :=
  if db.users.any (fun u => u.username == input.username || u.email == input.email) then
    .error (.persistence "duplicate key value violates unique constraint")
  else
    let user : User :=
      { id := freshId (db.users.map User.id)
        username := input.username
        email := input.email
        avatar_url := strOrNone input.avatar_url
        status := input.status.getD UserStatus.offline
        created_at := db.now
        updated_at := db.now }
    .ok (user, { db with users := db.users ++ [user] })

/-- From `create_chat_room.ts`: one transaction inserting the room and the
admin membership of the creator; the `created_by` foreign key is enforced by the
store and rolls back the whole transaction on violation. -/

def createChatRoom (db : DB) (input : CreateChatRoomInput) :
    Except ChatError (ChatRoom × DB) :=
  if db.users.any (fun u => u.id == input.created_by) then
    let room : ChatRoom :=
      { id := freshId (db.chatRooms.map ChatRoom.id)
        name := input.name
        description := strOrNone input.description
        is_private := input.is_private.getD false
        created_by := input.created_by
        created_at := db.now
        updated_at := db.now }
    let member : RoomMember :=
      { id := freshId (db.roomMembers.map RoomMember.id)
        room_id := room.id
        user_id := input.created_by
        role := RoomRole.admin
        joined_at := db.now }
    .ok (room, { db with chatRooms := db.chatRooms ++ [room],
                         roomMembers := db.roomMembers ++ [member] })
  else
    .error (.persistence "foreign key constraint violated on chat_rooms.created_by")

/-- From `create_message.ts` line 68: the notification body built from the content. -/

def newMessageBody (content : String) : String :=
  "New message in room: " ++ content.take 50 ++
    (if content.length > 50 then "..." else "")

/-- From `create_message.ts` lines 24-38: the reply check runs only when
`input.reply_to_id` is truthy, and fails when no message with that id exists
in the same room. -/

def replyTargetMissing (db : DB) (input : CreateMessageInput) : Bool :=
  truthyNum input.reply_to_id &&
    (db.messages.filter fun m =>
      (some m.id == input.reply_to_id) && m.room_id == input.room_id).length == 0

/-- The message row inserted by `create_message.ts` lines 41-51. -/

def builtMessage (db : DB) (input : CreateMessageInput) : Message :=
  { id := freshId (db.messages.map Message.id)
    room_id := input.room_id
    user_id := input.user_id
    content := input.content
    message_type := input.message_type.getD MessageType.text
    file_url := strOrNone input.file_url
    reply_to_id := if truthyNum input.reply_to_id then input.reply_to_id else none
    created_at := db.now
    updated_at := db.now }

/-- From `create_message.ts` lines 55-79: one `new_message` notification per room
member other than the sender (batch insert, consecutive serial ids). -/

def messageNotifs (db1 : DB) (input : CreateMessageInput) (msgId : Nat) :
    List PushNotification :=
  let roomMembers := db1.roomMembers.filter fun m => m.room_id == input.room_id
  let otherMembers := roomMembers.filter fun m => m.user_id != input.user_id
  let base := freshId (db1.pushNotifications.map PushNotification.id)
  otherMembers.enum.map fun p =>
    { id := base + p.fst
      user_id := p.snd.user_id
      title := "New Message"
      body := newMessageBody input.content
      type := NotifType.new_message
      data := some (NotifData.newMessageData input.room_id msgId input.user_id)
      is_read := false
      created_at := db1.now }

/-- The store after a successful `createMessage`: the message row appended,
then the fan-out notifications appended. -/

def msgResultDB (db : DB) (input : CreateMessageInput) : DB :=
  let msg := builtMessage db input
  let db1 := { db with messages := db.messages ++ [msg] }
  { db1 with pushNotifications :=
      db1.pushNotifications ++ messageNotifs db1 input msg.id }

/-- From `create_message.ts`: membership check, reply-target check, insert, fan-out. -/

def createMessage (db : DB) (input : CreateMessageInput) :
    Except ChatError (Message × DB) :=
  if (db.roomMembers.filter fun m =>
        m.room_id == input.room_id && m.user_id == input.user_id).length == 0 then
    .error (.authorization "User is not a member of this room")
  else if replyTargetMissing db input then
    .error (.notFound "Reply target message not found in this room")
  else
    .ok (builtMessage db input, msgResultDB db input)

/-- From `update_user.ts` lines 21-36: apply exactly the provided fields to the
matching row and refresh `updated_at`. -/

def applyUserUpdate (input : UpdateUserInput) (now : Nat) (u : User) : User :=
  if u.id == input.id then
    { u with
      username := input.username.getD u.username
      email := input.email.getD u.email
      avatar_url := match input.avatar_url with
        | some v => v
        | none => u.avatar_url
      status := input.status.getD u.status
      updated_at := now }
  else u

/-- From `update_user.ts` line 52: `input.status !== undefined && input.status !== oldStatus`. -/

def statusChanged (input : UpdateUserInput) (oldStatus : UserStatus) : Bool :=
  match input.status with
  | some s => s != oldStatus
  | none => false

def statusString : UserStatus → String
  | .online => "online"
  | .offline => "offline"
  | .away => "away"

/-- From `update_user.ts` lines 54-71: `selectDistinct` of (user_id, username) over
room members sharing a room with the subject, inner-joined with users,
excluding the subject. -/

def roomMatePairs (db1 : DB) (subjectId : Nat) : List (Nat × String) :=
  let myRoomIds := (db1.roomMembers.filter fun m => m.user_id == subjectId).map
    RoomMember.room_id
  let mateRows := db1.roomMembers.filter fun m =>
    myRoomIds.contains m.room_id && m.user_id != subjectId
  let joined := mateRows.flatMap fun m =>
    (db1.users.filter fun u => u.id == m.user_id).map fun u => (u.id, u.username)
  dedupFirst joined

/-- From `update_user.ts` lines 74-93: one `status_update` notification per room mate. -/

def statusNotifs (db1 : DB) (updatedUser : User) (oldStatus : UserStatus) :
    List PushNotification :=
  let base := freshId (db1.pushNotifications.map PushNotification.id)
  (roomMatePairs db1 updatedUser.id).enum.map fun p =>
    { id := base + p.fst
      user_id := p.snd.fst
      title := "User Status Update"
      body := updatedUser.username ++ " is now " ++ statusString updatedUser.status
      type := NotifType.status_update
      data := some (NotifData.statusUpdateData updatedUser.id updatedUser.username
        oldStatus updatedUser.status)
      is_read := false
      created_at := db1.now }

/-- The unique constraints of `schema.ts` (`username` and `email` are both
`.unique()`) applied to an update: the `UPDATE` is rejected by the store when
a provided username or email equals the value held by a different user row.
`update_user.ts` has no pre-check; the violation is thrown by the store and
rethrown by the handler. -/
def uniqueViolation (db : DB) (input : UpdateUserInput) : Bool :=
  db.users.any fun u => u.id != input.id &&
    ((match input.username with
      | some n => u.username == n
      | none => false) ||
     (match input.email with
      | some e => u.email == e
      | none => false))

/-- From `update_user.ts`: read the old status, apply the update (which the
store rejects on a username/email unique violation), fan out `status_update`
notifications when the status actually changed. -/

def updateUser (db : DB) (input : UpdateUserInput) : Except ChatError (User × DB) :=
  match db.users.find? (fun u => u.id == input.id) with
  | none => .error (.notFound "User not found")
  | some currentUser =>
    if uniqueViolation db input then
      .error (.persistence "duplicate key value violates unique constraint")
    else
    match (db.users.map (applyUserUpdate input db.now)).find?
        (fun u => u.id == input.id) with
    | none => .error (.persistence "User update failed")
    | some updatedUser =>
      if statusChanged input currentUser.status then
        .ok (updatedUser,
          { db with users := db.users.map (applyUserUpdate input db.now),
                    pushNotifications := db.pushNotifications ++
                      statusNotifs
                        { db with users :=
                            db.users.map (applyUserUpdate input db.now) }
                        updatedUser currentUser.status })
      else
        .ok (updatedUser,
          { db with users := db.users.map (applyUserUpdate input db.now) })

/-- From `create_comment.ts` lines 62-77: distinct user ids of all comments on the
upload other than the current commenter and the owner (the query runs after
the new comment was inserted). -/

def otherCommenterIds (db2 : DB) (input : CreateCommentInput) (ownerId : Nat) :
    List Nat :=
  dedupFirst ((db2.comments.filter fun c =>
    c.upload_id == input.upload_id && c.user_id != input.user_id &&
      c.user_id != ownerId).map Comment.user_id)

/-- The comment row inserted by `create_comment.ts` lines 31-38. -/

def newCommentRow (db : DB) (input : CreateCommentInput) : Comment :=
  { id := freshId (db.comments.map Comment.id)
    upload_id := input.upload_id
    user_id := input.user_id
    content := input.content
    created_at := db.now
    updated_at := db.now }

/-- From `create_comment.ts` lines 45-60: the notification to the owner, inserted only
when the commenter is not the upload owner. -/

def ownerNotifList (db1 : DB) (input : CreateCommentInput) (o : Upload)
    (commentId : Nat) : List PushNotification :=
  if o.user_id != input.user_id then
    [{ id := freshId (db1.pushNotifications.map PushNotification.id)
       user_id := o.user_id
       title := "New Comment"
       body := "Someone commented on your upload: " ++ o.filename
       type := NotifType.new_comment
       data := some (NotifData.newCommentData commentId input.upload_id
         input.user_id)
       is_read := false
       created_at := db1.now }]
  else []

/-- From `create_comment.ts` lines 79-94: one notification per other distinct
commenter (sequential inserts, consecutive serial ids). -/

def commentFanout (db2 : DB) (input : CreateCommentInput) (o : Upload)
    (commentId : Nat) : List PushNotification :=
  let base := freshId (db2.pushNotifications.map PushNotification.id)
  (otherCommenterIds db2 input o.user_id).enum.map fun p =>
    { id := base + p.fst
      user_id := p.snd
      title := "New Comment"
      body := "Someone else commented on an upload you commented on: " ++
        o.filename
      type := NotifType.new_comment
      data := some (NotifData.newCommentData commentId input.upload_id
        input.user_id)
      is_read := false
      created_at := db2.now }

/-- The store after a successful `createComment`. -/

def commentResultDB (db : DB) (input : CreateCommentInput) (o : Upload) : DB :=
  let comment := newCommentRow db input
  let db1 := { db with comments := db.comments ++ [comment] }
  let db2 := { db1 with pushNotifications :=
    db1.pushNotifications ++ ownerNotifList db1 input o comment.id }
  { db2 with pushNotifications :=
      db2.pushNotifications ++ commentFanout db2 input o comment.id }

/-- From `create_comment.ts`: validate upload and user, insert the comment, notify
the owner (unless the commenter owns the upload) and every other distinct
prior commenter. -/

def createComment (db : DB) (input : CreateCommentInput) :
    Except ChatError (Comment × DB) :=
  match db.uploads.find? (fun u => u.id == input.upload_id) with
  | none => .error (.notFound "Upload not found")
  | some uploadOwner =>
    if (db.users.find? fun u => u.id == input.user_id).isNone then
      .error (.notFound "User not found")
    else
      .ok (newCommentRow db input, commentResultDB db input uploadOwner)

/-- The row-updating function of the mark-read `UPDATE`. -/

def markReadRow (i : Nat) (n : PushNotification) : PushNotification :=
  if n.id == i then { n with is_read := true } else n

/-- Handler `mark_notification_read` (in the concatenated handler file): unconditional
`UPDATE ... SET is_read = true WHERE id = input.id RETURNING *`, then
NotFound when no row matched. -/

def markNotificationRead (db : DB) (input : MarkNotificationReadInput) :
    Except ChatError (PushNotification × DB) :=
  let updated := db.pushNotifications.map (markReadRow input.id)
  match updated.filter (fun n => n.id == input.id) with
  | [] => .error (.notFound ("Notification with id " ++ toString input.id ++
      " not found"))
  | n :: _ => .ok (n, { db with pushNotifications := updated })

/-- Descending order on `created_at` used by `getRoomMessages`. -/

def msgDesc (a b : Message) : Prop := b.created_at ≤ a.created_at

instance : DecidableRel msgDesc := fun _ _ => Nat.decLe _ _

instance : IsTotal Message msgDesc := ⟨fun a b => le_total b.created_at a.created_at⟩

instance : IsTrans Message msgDesc := ⟨fun _ _ _ hab hbc => le_trans hbc hab⟩

/-- From `src/unnamed/part_006` (`getRoomMessages`): filter by room, order by
`created_at` descending, apply `input.limit || 50` and `input.offset || 0`. -/

def getRoomMessages (db : DB) (input : GetRoomMessagesInput) : List Message :=
  let limit := match input.limit with
    | some n => if n == 0 then 50 else n
    | none => 50
  let offset := match input.offset with
    | some n => if n == 0 then 0 else n
    | none => 0
  ((((db.messages.filter fun m => m.room_id == input.room_id).insertionSort
      msgDesc).drop offset).take limit)

/-- The notification rows a handler outcome appended to the store. -/

def newNotifs (db : DB) (r : Except ChatError (α × DB)) : List PushNotification :=
  match r with
  | .ok (_, db') => db'.pushNotifications.drop db.pushNotifications.length
  | .error _ => []

/-- The recipient-set predicate of the status fan-out, written from the spec
sentence: `uid` is a distinct other user sharing at least one room with
`subjectId`. -/

def sharesRoomWith (db : DB) (subjectId uid : Nat) : Bool :=
  (db.users.any fun u => u.id == uid) && uid != subjectId &&
    (db.roomMembers.any fun m1 => m1.user_id == subjectId &&
      (db.roomMembers.any fun m2 => m2.user_id == uid && m2.room_id == m1.room_id))

/-! ## Shared example data for concrete witnesses (grouped by claim below) -/

def emptyDB : DB :=
  { users := [], chatRooms := [], messages := [], roomMembers := [], uploads := [],
    comments := [], pushNotifications := [], now := 0 }

def uAlice : User :=
  { id := 1, username := "alice", email := "alice@example.com", avatar_url := none,
    status := .offline, created_at := 1, updated_at := 1 }

def uBob : User :=
  { id := 2, username := "bob", email := "bob@example.com", avatar_url := none,
    status := .online, created_at := 1, updated_at := 1 }

def uCarol : User :=
  { id := 3, username := "carol", email := "carol@example.com", avatar_url := none,
    status := .online, created_at := 1, updated_at := 1 }

def rMain : ChatRoom :=
  { id := 1, name := "general", description := none, is_private := false,
    created_by := 1, created_at := 1, updated_at := 1 }

def rSide : ChatRoom :=
  { id := 2, name := "side", description := none, is_private := false,
    created_by := 1, created_at := 1, updated_at := 1 }

/-! ## C5 -/

def wDB5 : DB :=
  { emptyDB with users := [uAlice, uBob], chatRooms := [rMain],
                 roomMembers := [{ id := 1, room_id := 1, user_id := 1,
                                   role := .admin, joined_at := 1 }], now := 7 }

/-! ## C10 -/

def wDB10 : DB :=
  { emptyDB with users := [uAlice], chatRooms := [rMain],
                 roomMembers := [{ id := 1, room_id := 1, user_id := 1,
                                   role := .admin, joined_at := 1 }], now := 7 }

def wIn10 : CreateMessageInput :=
  { room_id := 1, user_id := 1, content := "hi", reply_to_id := some 0 }

/-! ## C6 -/

def cDB6 : DB :=
  { emptyDB with users := [uAlice], chatRooms := [rMain],
                 roomMembers := [{ id := 1, room_id := 1, user_id := 1,
                                   role := .admin, joined_at := 1 }], now := 7 }

def cIn6 : CreateMessageInput :=
  { room_id := 1, user_id := 1, content := "hi", reply_to_id := some 0 }

def wDB6 : DB :=
  { emptyDB with users := [uAlice], chatRooms := [rMain, rSide],
                 messages := [{ id := 1, room_id := 2, user_id := 1,
                                content := "elsewhere", message_type := .text,
                                file_url := none, reply_to_id := none,
                                created_at := 3, updated_at := 3 }],
                 roomMembers := [{ id := 1, room_id := 1, user_id := 1,
                                   role := .admin, joined_at := 1 }], now := 7 }

def wIn6 : CreateMessageInput :=
  { room_id := 1, user_id := 1, content := "hi", reply_to_id := some 1 }

/-! ## C1 -/

def cDB1 : DB :=
  { emptyDB with users := [uAlice, uBob], chatRooms := [rMain],
                 roomMembers := [{ id := 1, room_id := 1, user_id := 1,
                                   role := .admin, joined_at := 1 },
                                 { id := 2, room_id := 1, user_id := 2,
                                   role := .member, joined_at := 1 }], now := 7 }

def c1content : String := "aaaaaaaaaaaaaaaaaaaaaaaaaaaaaaaaaaaaaaaaaaaaaaaaaaaaaaaaaaaa"

def cIn1 : CreateMessageInput := { room_id := 1, user_id := 1, content := c1content }

/-! ## C9 -/

def wIn9 : CreateUserInput :=
  { username := "dana", email := "dana@example.com", avatar_url := some "" }

/-! ## C3 -/

def wDB3 : DB := { emptyDB with users := [uAlice], now := 9 }

def wIn3 : CreateChatRoomInput := { name := "general", created_by := 1 }

def wRoom3 : ChatRoom :=
  { id := 1, name := "general", description := none, is_private := false,
    created_by := 1, created_at := 9, updated_at := 9 }

def wDB3' : DB :=
  { wDB3 with chatRooms := [wRoom3],
              roomMembers := [{ id := 1, room_id := 1, user_id := 1,
                                role := .admin, joined_at := 9 }] }

/-! ## C7 -/

/-- All fields of a notification other than `is_read`. -/

def notifContent (n : PushNotification) :
    Nat × Nat × String × String × NotifType × Option NotifData × Nat :=
  (n.id, n.user_id, n.title, n.body, n.type, n.data, n.created_at)

def wDB7 : DB :=
  { emptyDB with users := [uBob],
                 pushNotifications := [{ id := 1, user_id := 2, title := "t",
                                         body := "b", type := .new_message,
                                         data := none, is_read := false,
                                         created_at := 4 }], now := 9 }

def wN7 : PushNotification :=
  { id := 1, user_id := 2, title := "t", body := "b", type := .new_message,
    data := none, is_read := true, created_at := 4 }

def wDB7r : DB := { wDB7 with pushNotifications := [wN7] }

/-! ## C8 -/

def exM1 : Message :=
  { id := 1, room_id := 1, user_id := 1, content := "m1", message_type := .text,
    file_url := none, reply_to_id := none, created_at := 10, updated_at := 10 }

def exM2 : Message :=
  { id := 2, room_id := 1, user_id := 1, content := "m2", message_type := .text,
    file_url := none, reply_to_id := none, created_at := 20, updated_at := 20 }

def exM3 : Message :=
  { id := 3, room_id := 1, user_id := 1, content := "m3", message_type := .text,
    file_url := none, reply_to_id := none, created_at := 30, updated_at := 30 }

def exM4 : Message :=
  { id := 4, room_id := 1, user_id := 1, content := "m4", message_type := .text,
    file_url := none, reply_to_id := none, created_at := 40, updated_at := 40 }

def exM5 : Message :=
  { id := 5, room_id := 1, user_id := 1, content := "m5", message_type := .text,
    file_url := none, reply_to_id := none, created_at := 50, updated_at := 50 }

def exDB8 : DB :=
  { emptyDB with users := [uAlice], chatRooms := [rMain],
                 messages := [exM2, exM5, exM1, exM4, exM3],
                 roomMembers := [{ id := 1, room_id := 1, user_id := 1,
                                   role := .admin, joined_at := 1 }], now := 60 }

/-! ## C4 -/

def wDB4 : DB :=
  { emptyDB with
      users := [uAlice, uBob, uCarol,
                { id := 4, username := "dana", email := "dana@example.com",
                  avatar_url := none, status := .online, created_at := 1,
                  updated_at := 1 }],
      uploads := [{ id := 1, user_id := 1, filename := "pic.png",
                    file_url := "u", file_size := 5, file_type := "png",
                    room_id := none, created_at := 1 }],
      comments := [{ id := 1, upload_id := 1, user_id := 2, content := "c1",
                     created_at := 1, updated_at := 1 },
                   { id := 2, upload_id := 1, user_id := 2, content := "c2",
                     created_at := 2, updated_at := 2 },
                   { id := 3, upload_id := 1, user_id := 3, content := "c3",
                     created_at := 3, updated_at := 3 },
                   { id := 4, upload_id := 1, user_id := 1, content := "c4",
                     created_at := 4, updated_at := 4 }],
      now := 50 }

def wIn4 : CreateCommentInput := { upload_id := 1, user_id := 4, content := "hi" }

def wUpload4 : Upload :=
  { id := 1, user_id := 1, filename := "pic.png", file_url := "u",
    file_size := 5, file_type := "png", room_id := none, created_at := 1 }

/-! ## C2 -/

def w2DB : DB :=
  { emptyDB with users := [uAlice, uBob, uCarol],
                 chatRooms := [rMain, rSide],
                 roomMembers := [
                   { id := 1, room_id := 1, user_id := 1, role := .admin,
                     joined_at := 1 },
                   { id := 2, room_id := 1, user_id := 2, role := .member,
                     joined_at := 1 },
                   { id := 3, room_id := 2, user_id := 1, role := .admin,
                     joined_at := 1 },
                   { id := 4, room_id := 2, user_id := 2, role := .member,
                     joined_at := 1 }],
                 now := 100 }

def w2In : UpdateUserInput := { id := 1, status := some .online }

/-- A status change combined with a rename to a username another user already
holds: the store rejects the update and no notification is created. -/
def w2InBad : UpdateUserInput :=
  { id := 1, username := some "bob", status := some .online }

/-! ## Theorems -/

theorem lt_freshId {ids : List Nat} {i : Nat} (h : i ∈ ids) : i < freshId ids := by
  induction ids with
  | nil => cases h
  | cons a l ih =>
    rcases List.mem_cons.mp h with rfl | h
    · exact Nat.lt_succ_of_le (Nat.le_max_left _ _)
    · exact Nat.lt_of_lt_of_le (ih h)
        (Nat.succ_le_succ (Nat.le_max_right _ _))

theorem mem_dedupFirstAux [DecidableEq α] {seen l : List α} {x : α} :
    x ∈ dedupFirstAux seen l ↔ x ∈ l ∧ x ∉ seen := by
  induction l generalizing seen with
  | nil => simp [dedupFirstAux]
  | cons a l ih =>
    by_cases ha : a ∈ seen
    · simp only [dedupFirstAux, if_pos ha, ih, List.mem_cons]
      constructor
      · rintro ⟨hx, hns⟩; exact ⟨Or.inr hx, hns⟩
      · rintro ⟨(rfl | hx), hns⟩
        · exact absurd ha hns
        · exact ⟨hx, hns⟩
    · simp only [dedupFirstAux, if_neg ha, List.mem_cons, ih, List.mem_cons]
      constructor
      · rintro (rfl | ⟨hx, hns⟩)
        · exact ⟨Or.inl rfl, ha⟩
        · exact ⟨Or.inr hx, fun hc => hns (Or.inr hc)⟩
      · rintro ⟨(rfl | hx), hns⟩
        · exact Or.inl rfl
        · by_cases hxa : x = a
          · exact Or.inl hxa
          · exact Or.inr ⟨hx, fun hc => hc.elim hxa hns⟩

theorem mem_dedupFirst [DecidableEq α] {l : List α} {x : α} :
    x ∈ dedupFirst l ↔ x ∈ l := by
  simp [dedupFirst, mem_dedupFirstAux]

theorem nodup_dedupFirstAux [DecidableEq α] (seen l : List α) :
    (dedupFirstAux seen l).Nodup := by
  induction l generalizing seen with
  | nil => simp [dedupFirstAux]
  | cons a l ih =>
    by_cases ha : a ∈ seen
    · simpa [dedupFirstAux, if_pos ha] using ih seen
    · simp only [dedupFirstAux, if_neg ha, List.nodup_cons]
      refine ⟨fun hc => ?_, ih (a :: seen)⟩
      exact (mem_dedupFirstAux.mp hc).2 (List.mem_cons_self a seen)

theorem nodup_dedupFirst [DecidableEq α] (l : List α) :
    (dedupFirst l).Nodup :=
  nodup_dedupFirstAux [] l

theorem length_dedupFirst_eq_card [DecidableEq α] (l : List α) :
    (dedupFirst l).length = l.toFinset.card := by
  have hset : (dedupFirst l).toFinset = l.toFinset := by
    ext x
    simp [List.mem_toFinset, mem_dedupFirst]
  calc (dedupFirst l).length = (dedupFirst l).toFinset.card :=
        (List.toFinset_card_of_nodup (nodup_dedupFirst l)).symm
    _ = l.toFinset.card := by rw [hset]

theorem createMessage_ok_iff (db : DB) (input : CreateMessageInput)
    (m : Message) (db' : DB) :
    createMessage db input = .ok (m, db') ↔
      ((db.roomMembers.filter fun mem =>
          mem.room_id == input.room_id && mem.user_id == input.user_id).length == 0)
          = false ∧
        replyTargetMissing db input = false ∧
        m = builtMessage db input ∧ db' = msgResultDB db input := by
  cases h1 : ((db.roomMembers.filter fun mem =>
      mem.room_id == input.room_id && mem.user_id == input.user_id).length == 0) with
  | true => simp [createMessage, h1]
  | false =>
    cases h2 : replyTargetMissing db input with
    | true => simp [createMessage, h1, h2]
    | false =>
      simp only [createMessage, h1, h2, Bool.false_eq_true, if_false,
        Except.ok.injEq, Prod.mk.injEq, true_and]
      constructor
      · rintro ⟨rfl, rfl⟩; exact ⟨rfl, rfl⟩
      · rintro ⟨rfl, rfl⟩; exact ⟨rfl, rfl⟩

/-- C5: a `createMessage` call by a user with no `RoomMember` row for the
target room fails with the authorization error "User is not a member of this
room".  In this embedding an error outcome returns no store, which models
that no message row and no notification is persisted and the store is
unchanged (the source throws before any insert). -/
theorem createMessage_nonMember_fails (db : DB) (input : CreateMessageInput)
    (h : ∀ m ∈ db.roomMembers,
      ¬(m.room_id = input.room_id ∧ m.user_id = input.user_id)) :
    createMessage db input =
      .error (.authorization "User is not a member of this room") := by
  have hf : (db.roomMembers.filter fun m =>
      m.room_id == input.room_id && m.user_id == input.user_id) = [] := by
    rw [List.filter_eq_nil_iff]
    intro m hm
    have hnot := h m hm
    simp only [Bool.and_eq_true, beq_iff_eq]
    exact fun hc => hnot ⟨hc.1, hc.2⟩
  simp [createMessage, hf]

theorem createMessage_nonMember_fails_witness :
    createMessage wDB5 { room_id := 1, user_id := 2, content := "hi" } =
      .error (.authorization "User is not a member of this room") :=
  createMessage_nonMember_fails wDB5 { room_id := 1, user_id := 2, content := "hi" }
    (by decide)

/-- C10: a `createMessage` call by a room member with `reply_to_id = 0`
succeeds — for an arbitrary `messages` table, so the reply-target existence
check is skipped entirely (`if (input.reply_to_id)` treats `0` as absent) —
and the stored message has `reply_to_id = null` (`input.reply_to_id || null`
collapses `0` to `null`). -/
theorem createMessage_replyZero_succeeds (db : DB) (input : CreateMessageInput)
    (hm : ∃ mem ∈ db.roomMembers,
      mem.room_id = input.room_id ∧ mem.user_id = input.user_id)
    (hr : input.reply_to_id = some 0) :
    createMessage db input = .ok (builtMessage db input, msgResultDB db input) ∧
      (builtMessage db input).reply_to_id = none := by
  obtain ⟨mem, hmem, hroom, huser⟩ := hm
  have h1 : ((db.roomMembers.filter fun m =>
      m.room_id == input.room_id && m.user_id == input.user_id).length == 0) = false := by
    have : mem ∈ db.roomMembers.filter fun m =>
        m.room_id == input.room_id && m.user_id == input.user_id := by
      rw [List.mem_filter]
      exact ⟨hmem, by simp [hroom, huser]⟩
    cases hfil : db.roomMembers.filter fun m =>
        m.room_id == input.room_id && m.user_id == input.user_id with
    | nil => rw [hfil] at this; cases this
    | cons a t => simp [hfil]
  have h2 : replyTargetMissing db input = false := by
    simp [replyTargetMissing, hr, truthyNum]
  refine ⟨(createMessage_ok_iff db input _ _).mpr ⟨h1, h2, rfl, rfl⟩, ?_⟩
  simp [builtMessage, hr, truthyNum]

theorem createMessage_replyZero_succeeds_witness :
    createMessage wDB10 wIn10 = .ok (builtMessage wDB10 wIn10, msgResultDB wDB10 wIn10) ∧
      (builtMessage wDB10 wIn10).reply_to_id = none :=
  createMessage_replyZero_succeeds wDB10 wIn10 (by decide) (by decide)

/-- C6 counterexample: the claim "every createMessage call with a reply_to_id
that does not identify an existing message in the same room fails with
NotFoundError and persists nothing" is false at `reply_to_id = some 0`: the
store holds no message at all (so id 0 certainly identifies none), the caller
is a member, yet the call succeeds. -/
theorem createMessage_badReply_counterexample :
    cIn6.reply_to_id = some 0 ∧ cDB6.messages = [] ∧
      (createMessage cDB6 cIn6).isOk = true := by decide

/-- C6 (amended): for every `createMessage` call by a room member whose
`reply_to_id` is present and nonzero and does not identify an existing
message in the same `room_id`, the call fails with the NotFound error
"Reply target message not found in this room"; the error outcome carries no
store, modelling that no message row is persisted. -/
theorem createMessage_badReply_fails (db : DB) (input : CreateMessageInput)
    (rid : Nat)
    (hm : ∃ mem ∈ db.roomMembers,
      mem.room_id = input.room_id ∧ mem.user_id = input.user_id)
    (hr : input.reply_to_id = some rid) (hr0 : rid ≠ 0)
    (hnone : ∀ m ∈ db.messages, ¬(m.id = rid ∧ m.room_id = input.room_id)) :
    createMessage db input =
      .error (.notFound "Reply target message not found in this room") := by
  obtain ⟨mem, hmem, hroom, huser⟩ := hm
  have h1 : ((db.roomMembers.filter fun m =>
      m.room_id == input.room_id && m.user_id == input.user_id).length == 0) = false := by
    have hin : mem ∈ db.roomMembers.filter fun m =>
        m.room_id == input.room_id && m.user_id == input.user_id := by
      rw [List.mem_filter]
      exact ⟨hmem, by simp [hroom, huser]⟩
    cases hfil : db.roomMembers.filter fun m =>
        m.room_id == input.room_id && m.user_id == input.user_id with
    | nil => rw [hfil] at hin; cases hin
    | cons a t => simp [hfil]
  have h2 : replyTargetMissing db input = true := by
    have hf : (db.messages.filter fun m =>
        (some m.id == input.reply_to_id) && m.room_id == input.room_id) = [] := by
      rw [List.filter_eq_nil_iff]
      intro m hmm
      have hnot := hnone m hmm
      simp only [hr, Bool.and_eq_true, beq_iff_eq, Option.some.injEq]
      exact fun hc => hnot ⟨hc.1, hc.2⟩
    simp [replyTargetMissing, hr, truthyNum, hf, hr0]
    exact fun a ha hid hrm => hnone a ha ⟨hid, hrm⟩
  simp [createMessage, h1, h2]

theorem createMessage_badReply_fails_witness :
    createMessage wDB6 wIn6 =
      .error (.notFound "Reply target message not found in this room") :=
  createMessage_badReply_fails wDB6 wIn6 1
    (by decide) (by decide) (by decide) (by decide)

/-- C1 counterexample: the claim "the notification body equals the message
content truncated to 75 characters (verbatim, no ellipsis, when the length is
at most 75)" is false for a 60-character content: the only notification
created for the other room member has body
`"New message in room: " ++ first 50 characters ++ "..."`, not the content. -/
theorem createMessage_notifBody_counterexample :
    c1content.length = 60 ∧
      (newNotifs cDB1 (createMessage cDB1 cIn1)).map PushNotification.body =
        ["New message in room: aaaaaaaaaaaaaaaaaaaaaaaaaaaaaaaaaaaaaaaaaaaaaaaaaa..."] ∧
      "New message in room: aaaaaaaaaaaaaaaaaaaaaaaaaaaaaaaaaaaaaaaaaaaaaaaaaa..." ≠
        c1content := by decide

/-- C1 (amended): for every successful `createMessage` call, the body of each
`new_message` notification created for the other room members equals
`"New message in room: "` followed by the first 50 characters of the content,
followed by `"..."` when the length of the content exceeds 50, and by the
untruncated content with no ellipsis otherwise. -/
theorem createMessage_notifBody (db : DB) (input : CreateMessageInput)
    (n : PushNotification) (hn : n ∈ newNotifs db (createMessage db input)) :
    n.type = NotifType.new_message ∧
      n.body = "New message in room: " ++ input.content.take 50 ++
        (if 50 < input.content.length then "..." else "") := by
  cases hres : createMessage db input with
  | error e => rw [hres] at hn; simp [newNotifs] at hn
  | ok p =>
    rw [hres] at hn
    have hinv := (createMessage_ok_iff db input p.1 p.2).mp (by rw [hres])
    obtain ⟨-, -, -, hdb⟩ := hinv
    simp only [newNotifs] at hn
    rw [hdb] at hn
    simp only [msgResultDB, List.drop_left] at hn
    simp only [messageNotifs, List.mem_map] at hn
    obtain ⟨q, -, rfl⟩ := hn
    exact ⟨rfl, by simp [newMessageBody]⟩

theorem createMessage_notifBody_witness :
    ({ id := 1, user_id := 2, title := "New Message",
       body := "New message in room: aaaaaaaaaaaaaaaaaaaaaaaaaaaaaaaaaaaaaaaaaaaaaaaaaa...",
       type := NotifType.new_message,
       data := some (NotifData.newMessageData 1 1 1), is_read := false,
       created_at := 7 } : PushNotification).type = NotifType.new_message ∧
      ({ id := 1, user_id := 2, title := "New Message",
         body := "New message in room: aaaaaaaaaaaaaaaaaaaaaaaaaaaaaaaaaaaaaaaaaaaaaaaaaa...",
         type := NotifType.new_message,
         data := some (NotifData.newMessageData 1 1 1), is_read := false,
         created_at := 7 } : PushNotification).body =
        "New message in room: " ++ c1content.take 50 ++
          (if 50 < c1content.length then "..." else "") :=
  createMessage_notifBody cDB1 cIn1 _ (by decide)

/-- C9: a `createUser` call whose `avatar_url` is the empty string behaves
exactly like the same call with `avatar_url` omitted — `input.avatar_url ||
null` coerces `""` to `null` — and in particular a successful call stores
`avatar_url = null`; the empty string is never stored. -/
theorem createUser_emptyAvatar (db : DB) (input : CreateUserInput)
    (h : input.avatar_url = some "") :
    createUser db input = createUser db { input with avatar_url := none } ∧
      ∀ u db', createUser db input = .ok (u, db') → u.avatar_url = none := by
  constructor
  · simp [createUser, h, strOrNone]
  · intro u db' hok
    cases hc : db.users.any
        (fun x => x.username == input.username || x.email == input.email) with
    | true => simp [createUser, hc] at hok
    | false =>
      simp only [createUser, hc, Bool.false_eq_true, if_false,
        Except.ok.injEq, Prod.mk.injEq] at hok
      rw [← hok.1, h]
      simp [strOrNone]

theorem createUser_emptyAvatar_witness :
    createUser emptyDB wIn9 = createUser emptyDB { wIn9 with avatar_url := none } :=
  (createUser_emptyAvatar emptyDB wIn9 (by decide)).1

/-- C3: a successful `createChatRoom` leaves exactly one `RoomMember` row for
`(room, creator)` and its role is `admin`, and the room row itself is
persisted.  The source wraps both inserts in one transaction; in this
embedding the atomicity is structural: a failure outcome returns no store at
all, so neither row is ever persisted alone.  The hypothesis is the
foreign-key invariant of the store (every member row references an existing
room), which makes the fresh room id unreferenced. -/
theorem createChatRoom_creatorAdmin (db : DB) (input : CreateChatRoomInput)
    (hfk : ∀ m ∈ db.roomMembers, ∃ r ∈ db.chatRooms, r.id = m.room_id) :
    ∀ room db', createChatRoom db input = .ok (room, db') →
      ((db'.roomMembers.filter fun m =>
          m.room_id == room.id && m.user_id == input.created_by).map
            RoomMember.role = [RoomRole.admin]) ∧
        room ∈ db'.chatRooms := by
  intro room db' hok
  cases hc : db.users.any (fun u => u.id == input.created_by) with
  | false => simp [createChatRoom, hc] at hok
  | true =>
    simp only [createChatRoom, hc, if_true, Except.ok.injEq, Prod.mk.injEq] at hok
    obtain ⟨hroom, hdb⟩ := hok
    subst hdb
    constructor
    · rw [List.filter_append]
      have hold : (db.roomMembers.filter fun m =>
          m.room_id == room.id && m.user_id == input.created_by) = [] := by
        rw [List.filter_eq_nil_iff]
        intro m hm
        obtain ⟨r, hr, hrid⟩ := hfk m hm
        have hlt : r.id < freshId (db.chatRooms.map ChatRoom.id) :=
          lt_freshId (List.mem_map_of_mem ChatRoom.id hr)
        have hrid2 : room.id = freshId (db.chatRooms.map ChatRoom.id) := by
          rw [← hroom]
        have hne : m.room_id ≠ room.id := by
          rw [hrid2, ← hrid]
          exact Nat.ne_of_lt hlt
        simp [hne]
      rw [hold]
      simp [← hroom]
    · rw [← hroom]
      exact List.mem_append_right _ (List.mem_singleton.mpr rfl)

theorem createChatRoom_creatorAdmin_witness :
    ((wDB3'.roomMembers.filter fun m =>
        m.room_id == wRoom3.id && m.user_id == wIn3.created_by).map
          RoomMember.role = [RoomRole.admin]) ∧
      wRoom3 ∈ wDB3'.chatRooms :=
  createChatRoom_creatorAdmin wDB3 wIn3 (by decide) wRoom3 wDB3' (by decide)

theorem markReadRow_id (i : Nat) (n : PushNotification) :
    (markReadRow i n).id = n.id := by
  unfold markReadRow; split <;> rfl

theorem markReadRow_idem (i : Nat) (n : PushNotification) :
    markReadRow i (markReadRow i n) = markReadRow i n := by
  unfold markReadRow
  split
  · simp
  · rfl

theorem markReadRow_content (i : Nat) (n : PushNotification) :
    notifContent (markReadRow i n) = notifContent n := by
  unfold markReadRow; split <;> rfl

theorem markNotificationRead_eq (db : DB) (i : Nat) :
    markNotificationRead db ⟨i⟩ =
      match (db.pushNotifications.map (markReadRow i)).filter
          (fun n => n.id == i) with
      | [] => .error (.notFound ("Notification with id " ++ toString i ++
          " not found"))
      | n :: _ =>
        .ok (n,
          { db with
              pushNotifications := db.pushNotifications.map (markReadRow i) }) := by
  rfl

/-- C7: `markNotificationRead` is idempotent.  For any store: (1) if a first
call succeeds, the second call on the resulting store succeeds with the very
same returned row and the very same store, the returned row and every stored
row with the given id have `is_read = true`, and every field other than
`is_read` of every notification is unchanged; (2) if some notification has
the id, the call succeeds; (3) for an unknown id the call fails with
NotFoundError. -/
theorem markNotificationRead_idem (db : DB) (i : Nat) :
    (∀ n1 db1, markNotificationRead db ⟨i⟩ = .ok (n1, db1) →
      markNotificationRead db1 ⟨i⟩ = .ok (n1, db1) ∧
        n1.is_read = true ∧
        (∀ n ∈ db1.pushNotifications, n.id = i → n.is_read = true) ∧
        db1.pushNotifications.map notifContent =
          db.pushNotifications.map notifContent) ∧
    ((∃ n ∈ db.pushNotifications, n.id = i) →
      (markNotificationRead db ⟨i⟩).isOk = true) ∧
    ((∀ n ∈ db.pushNotifications, n.id ≠ i) →
      markNotificationRead db ⟨i⟩ =
        .error (.notFound ("Notification with id " ++ toString i ++
          " not found"))) := by
  have hmapmap : (db.pushNotifications.map (markReadRow i)).map (markReadRow i) =
      db.pushNotifications.map (markReadRow i) := by
    rw [List.map_map]
    exact List.map_congr_left fun n _ => markReadRow_idem i n
  refine ⟨?_, ?_, ?_⟩
  · intro n1 db1 hok
    rw [markNotificationRead_eq] at hok
    cases hfil : (db.pushNotifications.map (markReadRow i)).filter
        (fun n => n.id == i) with
    | nil => rw [hfil] at hok; cases hok
    | cons a t =>
      rw [hfil] at hok
      simp only [Except.ok.injEq, Prod.mk.injEq] at hok
      obtain ⟨rfl, hdb1⟩ := hok
      have hpush : db1.pushNotifications = db.pushNotifications.map (markReadRow i) := by
        rw [← hdb1]
      have hread : ∀ n ∈ db1.pushNotifications, n.id = i → n.is_read = true := by
        intro n hn hid
        rw [hpush] at hn
        obtain ⟨n0, -, rfl⟩ := List.mem_map.mp hn
        by_cases hcase : (n0.id == i) = true
        · simp [markReadRow, hcase]
        · unfold markReadRow at hid
          rw [if_neg hcase] at hid
          exact absurd (by simp [hid]) hcase
      refine ⟨?_, ?_, hread, ?_⟩
      · rw [markNotificationRead_eq, hpush, hmapmap, hfil, ← hdb1]
      · have ha : a ∈ (db.pushNotifications.map (markReadRow i)).filter
            (fun n => n.id == i) := by
          rw [hfil]; exact List.mem_cons_self a t
        have hmem := (List.mem_filter.mp ha).1
        have hid := (List.mem_filter.mp ha).2
        exact hread a (by rw [hpush]; exact hmem) (by simpa using hid)
      · rw [hpush, List.map_map]
        exact List.map_congr_left fun n _ => markReadRow_content i n
  · rintro ⟨n, hn, hid⟩
    rw [markNotificationRead_eq]
    have hmemf : markReadRow i n ∈ (db.pushNotifications.map (markReadRow i)).filter
        (fun x => x.id == i) := by
      rw [List.mem_filter]
      exact ⟨List.mem_map_of_mem _ hn, by simp [markReadRow_id, hid]⟩
    cases hfil : (db.pushNotifications.map (markReadRow i)).filter
        (fun x => x.id == i) with
    | nil => rw [hfil] at hmemf; cases hmemf
    | cons a t => rfl
  · intro h
    rw [markNotificationRead_eq]
    have hfil : (db.pushNotifications.map (markReadRow i)).filter
        (fun x => x.id == i) = [] := by
      rw [List.filter_eq_nil_iff]
      intro a ha
      obtain ⟨n0, hn0, rfl⟩ := List.mem_map.mp ha
      simp [markReadRow_id, h n0 hn0]
    rw [hfil]

theorem markNotificationRead_idem_witness :
    markNotificationRead wDB7r ⟨1⟩ = .ok (wN7, wDB7r) ∧ wN7.is_read = true ∧
      markNotificationRead wDB7 ⟨2⟩ =
        .error (.notFound "Notification with id 2 not found") := by
  have hok : markNotificationRead wDB7 ⟨1⟩ = .ok (wN7, wDB7r) := by decide
  have h1 := (markNotificationRead_idem wDB7 1).1 wN7 wDB7r hok
  exact ⟨h1.1, h1.2.1, (markNotificationRead_idem wDB7 2).2.2 (by decide)⟩

/-- C8: `getRoomMessages` returns the messages of the room ordered by `created_at`
descending; `limit` defaults to 50 and `offset` to 0; over the 5-message
example room, `limit = 2, offset = 2` returns the 3rd and 4th most-recent
messages and is disjoint from `limit = 2, offset = 0`; an unknown room (no
message row carries its id) yields the empty list, not an error. -/
theorem getRoomMessages_spec (db : DB) (inp : GetRoomMessagesInput) (rid : Nat) :
    (getRoomMessages db { room_id := rid } =
        getRoomMessages db { room_id := rid, limit := some 50, offset := some 0 }) ∧
      ((getRoomMessages db inp).Pairwise fun a b => b.created_at ≤ a.created_at) ∧
      ((∀ m ∈ db.messages, m.room_id ≠ inp.room_id) → getRoomMessages db inp = []) ∧
      (getRoomMessages exDB8 { room_id := 1, limit := some 2, offset := some 2 } =
          [exM3, exM2] ∧
        getRoomMessages exDB8 { room_id := 1, limit := some 2, offset := some 0 } =
          [exM5, exM4] ∧
        ∀ m ∈ getRoomMessages exDB8 { room_id := 1, limit := some 2, offset := some 2 },
          m ∉ getRoomMessages exDB8 { room_id := 1, limit := some 2, offset := some 0 }) := by
  refine ⟨rfl, ?_, ?_, by decide⟩
  · have hs := List.sorted_insertionSort msgDesc
      (db.messages.filter fun m => m.room_id == inp.room_id)
    simp only [getRoomMessages]
    exact List.Pairwise.sublist
      ((List.take_sublist _ _).trans (List.drop_sublist _ _)) hs
  · intro h
    have hf : (db.messages.filter fun m => m.room_id == inp.room_id) = [] := by
      rw [List.filter_eq_nil_iff]
      intro m hm
      simpa using h m hm
    simp [getRoomMessages, hf]

theorem getRoomMessages_spec_witness :
    getRoomMessages exDB8 { room_id := 9 } = [] :=
  (getRoomMessages_spec exDB8 { room_id := 9 } 9).2.2.1 (by decide)

/-- C4: a successful `createComment` on an upload with `N` prior distinct
commenters (excluding the upload owner and the current commenter) creates
exactly `N + (1 if commenter ≠ owner else 0)` notifications of type
`new_comment`: one for the owner when the commenter is not the owner, and one
per prior distinct commenter regardless of how many prior comments each made.
`N` is stated as the cardinality of the set of prior commenter ids. -/
theorem createComment_notifCount (db : DB) (input : CreateCommentInput)
    (o : Upload)
    (hup : db.uploads.find? (fun u => u.id == input.upload_id) = some o)
    (husr : (db.users.find? fun u => u.id == input.user_id).isNone = false) :
    (newNotifs db (createComment db input)).countP
        (fun n => n.type == NotifType.new_comment)
      = (if o.user_id = input.user_id then 0 else 1) +
        ((db.comments.filter fun c =>
            c.upload_id == input.upload_id && c.user_id != input.user_id &&
              c.user_id != o.user_id).map Comment.user_id).toFinset.card := by
  have hok : createComment db input =
      .ok (newCommentRow db input, commentResultDB db input o) := by
    simp only [createComment]
    rw [hup, husr]
    simp
  rw [hok]
  have hfinal : (commentResultDB db input o).pushNotifications =
      (db.pushNotifications ++
        ownerNotifList { db with comments := db.comments ++ [newCommentRow db input] }
          input o (newCommentRow db input).id) ++
      commentFanout
        { db with comments := db.comments ++ [newCommentRow db input],
                  pushNotifications := db.pushNotifications ++
                    ownerNotifList
                      { db with comments := db.comments ++ [newCommentRow db input] }
                      input o (newCommentRow db input).id }
        input o (newCommentRow db input).id := rfl
  have hnew : newNotifs db
      (Except.ok (newCommentRow db input, commentResultDB db input o) :
        Except ChatError (Comment × DB)) =
      ownerNotifList { db with comments := db.comments ++ [newCommentRow db input] }
          input o (newCommentRow db input).id ++
        commentFanout
          { db with comments := db.comments ++ [newCommentRow db input],
                    pushNotifications := db.pushNotifications ++
                      ownerNotifList
                        { db with comments := db.comments ++ [newCommentRow db input] }
                        input o (newCommentRow db input).id }
          input o (newCommentRow db input).id := by
    simp only [newNotifs, hfinal, List.append_assoc, List.drop_left]
  rw [hnew, List.countP_append]
  have howner : ∀ (d : DB) (cid : Nat),
      (ownerNotifList d input o cid).countP (fun n => n.type == NotifType.new_comment)
        = if o.user_id = input.user_id then 0 else 1 := by
    intro d cid
    by_cases hcase : o.user_id = input.user_id
    · simp [ownerNotifList, hcase]
    · simp [ownerNotifList, hcase, List.countP_cons]
  have hfan : ∀ (d : DB) (cid : Nat), d.comments = db.comments ++ [newCommentRow db input] →
      (commentFanout d input o cid).countP (fun n => n.type == NotifType.new_comment)
        = ((db.comments.filter fun c =>
            c.upload_id == input.upload_id && c.user_id != input.user_id &&
              c.user_id != o.user_id).map Comment.user_id).toFinset.card := by
    intro d cid hdc
    have hall : (commentFanout d input o cid).countP
        (fun n => n.type == NotifType.new_comment) =
        (commentFanout d input o cid).length :=
      List.countP_eq_length.mpr (by
        intro a ha
        simp only [commentFanout, List.mem_map] at ha
        obtain ⟨q, -, rfl⟩ := ha
        rfl)
    rw [hall]
    have hfilter : (d.comments.filter fun c =>
        c.upload_id == input.upload_id && c.user_id != input.user_id &&
          c.user_id != o.user_id) =
        db.comments.filter fun c =>
          c.upload_id == input.upload_id && c.user_id != input.user_id &&
            c.user_id != o.user_id := by
      rw [hdc, List.filter_append]
      have hlast : ([newCommentRow db input].filter fun c =>
          c.upload_id == input.upload_id && c.user_id != input.user_id &&
            c.user_id != o.user_id) = [] := by
        simp [newCommentRow]
      rw [hlast, List.append_nil]
    simp only [commentFanout, List.length_map, List.enum_length]
    rw [otherCommenterIds, hfilter, length_dedupFirst_eq_card]
  rw [howner, hfan _ _ rfl]

theorem createComment_notifCount_witness :
    (newNotifs wDB4 (createComment wDB4 wIn4)).countP
        (fun n => n.type == NotifType.new_comment)
      = (if wUpload4.user_id = wIn4.user_id then 0 else 1) +
        ((wDB4.comments.filter fun c =>
            c.upload_id == wIn4.upload_id && c.user_id != wIn4.user_id &&
              c.user_id != wUpload4.user_id).map Comment.user_id).toFinset.card :=
  createComment_notifCount wDB4 wIn4 wUpload4 (by decide) (by decide)

theorem applyUserUpdate_id (input : UpdateUserInput) (now : Nat) (u : User) :
    (applyUserUpdate input now u).id = u.id := by
  unfold applyUserUpdate; split <;> rfl

theorem find?_map_applyUserUpdate (l : List User) (input : UpdateUserInput)
    (now : Nat) :
    (l.map (applyUserUpdate input now)).find? (fun u => u.id == input.id) =
      (l.find? (fun u => u.id == input.id)).map (applyUserUpdate input now) := by
  induction l with
  | nil => rfl
  | cons a t ih =>
    simp only [List.map_cons, List.find?_cons, applyUserUpdate_id]
    cases h : (a.id == input.id) with
    | true => rfl
    | false => exact ih

theorem map_id_applyUserUpdate (l : List User) (input : UpdateUserInput)
    (now : Nat) :
    (l.map (applyUserUpdate input now)).map User.id = l.map User.id := by
  rw [List.map_map]
  exact List.map_congr_left fun u _ => applyUserUpdate_id input now u

/-- Characterization of `updateUser` on a found user when no unique
constraint is violated. -/
theorem updateUser_eq (db : DB) (input : UpdateUserInput) (cur : User)
    (hfind : db.users.find? (fun u => u.id == input.id) = some cur)
    (huniq : uniqueViolation db input = false) :
    updateUser db input =
      if statusChanged input cur.status then
        .ok (applyUserUpdate input db.now cur,
          { db with users := db.users.map (applyUserUpdate input db.now),
                    pushNotifications := db.pushNotifications ++
                      statusNotifs
                        { db with users :=
                            db.users.map (applyUserUpdate input db.now) }
                        (applyUserUpdate input db.now cur) cur.status })
      else
        .ok (applyUserUpdate input db.now cur,
          { db with users := db.users.map (applyUserUpdate input db.now) }) := by
  have hfind2 : (db.users.map (applyUserUpdate input db.now)).find?
      (fun u => u.id == input.id) = some (applyUserUpdate input db.now cur) := by
    rw [find?_map_applyUserUpdate, hfind]
    rfl
  simp only [updateUser]
  rw [hfind, huniq, hfind2]
  simp

theorem countP_enum (l : List α) (p : α → Bool) :
    (l.enum.countP fun q => p q.snd) = l.countP p := by
  have h1 := List.countP_map p (Prod.snd : Nat × α → α) (l := l.enum)
  rw [List.enum_map_snd] at h1
  exact h1.symm

theorem length_filter_of_nodup_unique {l : List α} {p : α → Bool} (hnd : l.Nodup)
    (huniq : ∀ x ∈ l, ∀ y ∈ l, p x = true → p y = true → x = y) :
    (l.filter p).length = if l.any p then 1 else 0 := by
  cases hf : l.filter p with
  | nil =>
    have hany : l.any p = false := by
      rw [← Bool.not_eq_true, List.any_eq_true]
      rintro ⟨x, hx, hpx⟩
      have hmem : x ∈ l.filter p := List.mem_filter.mpr ⟨hx, hpx⟩
      rw [hf] at hmem; cases hmem
    simp [hany]
  | cons a t =>
    have ha : a ∈ l.filter p := by rw [hf]; exact List.mem_cons_self a t
    have hae := List.mem_filter.mp ha
    have hat : t = [] := by
      cases t with
      | nil => rfl
      | cons b t2 =>
        exfalso
        have hb : b ∈ l.filter p := by
          rw [hf]; exact List.mem_cons_of_mem a (List.mem_cons_self b t2)
        have hbe := List.mem_filter.mp hb
        have hab : a = b := huniq a hae.1 b hbe.1 hae.2 hbe.2
        have hndf : (l.filter p).Nodup := hnd.filter p
        rw [hf, hab] at hndf
        simp [List.nodup_cons] at hndf
    subst hat
    have hany : l.any p = true := List.any_eq_true.mpr ⟨a, hae.1, hae.2⟩
    simp [hany]

/-- A pair is produced by the room-mates join iff its first component is a
distinct other user sharing a room with the subject (and the second is that
username of that user). -/
theorem mem_roomMatePairs (d : DB) (subj : Nat) (q : Nat × String) :
    q ∈ roomMatePairs d subj ↔
      ∃ m ∈ d.roomMembers,
        (∃ m1 ∈ d.roomMembers, m1.user_id = subj ∧ m1.room_id = m.room_id) ∧
          m.user_id ≠ subj ∧
          ∃ u ∈ d.users, u.id = m.user_id ∧ q = (u.id, u.username) := by
  simp only [roomMatePairs, mem_dedupFirst, List.mem_flatMap, List.mem_filter,
    List.mem_map, Bool.and_eq_true, beq_iff_eq, bne_iff_ne]
  constructor
  · rintro ⟨m, ⟨hm, hin, hne⟩, u, ⟨hu, huid⟩, hq⟩
    refine ⟨m, hm, ?_, hne, u, hu, huid, hq.symm⟩
    have hin2 := hin
    rw [List.contains_iff_exists_mem_beq] at hin2
    obtain ⟨rid, hrid, hbeq⟩ := hin2
    simp only [List.mem_map, List.mem_filter, beq_iff_eq] at hrid
    obtain ⟨m1, ⟨hm1, hm1u⟩, hm1r⟩ := hrid
    exact ⟨m1, hm1, hm1u, by rw [hm1r]; exact (beq_iff_eq.mp hbeq).symm⟩
  · rintro ⟨m, hm, ⟨m1, hm1, hm1u, hm1r⟩, hne, u, hu, huid, hq⟩
    refine ⟨m, ⟨hm, ?_, hne⟩, u, ⟨hu, huid⟩, hq.symm⟩
    rw [List.contains_iff_exists_mem_beq]
    refine ⟨m.room_id, ?_, by simp⟩
    simp only [List.mem_map, List.mem_filter, beq_iff_eq]
    exact ⟨m1, ⟨hm1, hm1u⟩, hm1r⟩

theorem countP_roomMatePairs (d : DB) (subj uid : Nat)
    (hpk : (d.users.map User.id).Nodup) :
    (roomMatePairs d subj).countP (fun q => q.fst == uid)
      = if sharesRoomWith d subj uid then 1 else 0 := by
  have hnd : (roomMatePairs d subj).Nodup := nodup_dedupFirstAux [] _
  have huniq : ∀ x ∈ roomMatePairs d subj, ∀ y ∈ roomMatePairs d subj,
      (x.fst == uid) = true → (y.fst == uid) = true → x = y := by
    intro x hx y hy hpx hpy
    rw [mem_roomMatePairs] at hx hy
    obtain ⟨mx, -, -, -, ux, hux, huxid, rfl⟩ := hx
    obtain ⟨my, -, -, -, uy, huy, huyid, rfl⟩ := hy
    simp only [beq_iff_eq] at hpx hpy
    have hxy : ux.id = uy.id := by rw [hpx, hpy]
    have hu : ux = uy := List.inj_on_of_nodup_map hpk hux huy hxy
    rw [hu]
  have hcond : (roomMatePairs d subj).any (fun q => q.fst == uid) =
      sharesRoomWith d subj uid := by
    rw [Bool.eq_iff_iff, List.any_eq_true]
    simp only [beq_iff_eq]
    constructor
    · rintro ⟨q, hq, hfst⟩
      rw [mem_roomMatePairs] at hq
      obtain ⟨m, hm, ⟨m1, hm1, hm1u, hm1r⟩, hne, u, hu, huid, rfl⟩ := hq
      simp only [sharesRoomWith, Bool.and_eq_true, List.any_eq_true, beq_iff_eq,
        bne_iff_ne]
      simp only at hfst
      refine ⟨⟨⟨u, hu, by rw [hfst]⟩, by rw [← hfst, huid]; exact hne⟩,
        m1, hm1, hm1u, m, hm, by rw [← huid]; exact hfst, hm1r.symm⟩
    · intro hs
      simp only [sharesRoomWith, Bool.and_eq_true, List.any_eq_true, beq_iff_eq,
        bne_iff_ne] at hs
      obtain ⟨⟨⟨u, hu, huid⟩, hne⟩, m1, hm1, hm1u, m2, hm2, hm2u, hm2r⟩ := hs
      refine ⟨(u.id, u.username), ?_, by simp [huid]⟩
      rw [mem_roomMatePairs]
      exact ⟨m2, hm2, ⟨m1, hm1, hm1u, hm2r.symm⟩, by rw [hm2u]; exact hne,
        u, hu, by rw [huid, hm2u], rfl⟩
  rw [List.countP_eq_length_filter, length_filter_of_nodup_unique hnd huniq, hcond]

theorem sharesRoomWith_mapUsers (db : DB) (input : UpdateUserInput)
    (subj uid : Nat) :
    sharesRoomWith
        { db with users := db.users.map (applyUserUpdate input db.now) } subj uid
      = sharesRoomWith db subj uid := by
  have hcomp : ((fun u : User => u.id == uid) ∘ applyUserUpdate input db.now) =
      fun u : User => u.id == uid := by
    funext u
    simp [Function.comp, applyUserUpdate_id]
  simp only [sharesRoomWith, List.any_map, hcomp]

theorem countP_statusNotifs (d : DB) (uu : User) (old : UserStatus) (uid : Nat)
    (hpk : (d.users.map User.id).Nodup) :
    (statusNotifs d uu old).countP
        (fun n => n.type == NotifType.status_update && n.user_id == uid)
      = if sharesRoomWith d uu.id uid then 1 else 0 := by
  have h1 : (statusNotifs d uu old).countP
      (fun n => n.type == NotifType.status_update && n.user_id == uid)
      = (roomMatePairs d uu.id).enum.countP (fun q => q.snd.fst == uid) := by
    simp only [statusNotifs, List.countP_map]
    apply List.countP_congr
    intro q hq
    simp [Function.comp]
  have h2 := countP_enum (roomMatePairs d uu.id) (fun r => r.fst == uid)
  rw [h1, h2, countP_roomMatePairs d uu.id uid hpk]

/-- C2: for an `updateUser` call on an existing user (under the primary-key
invariant of the store on user ids): if the input carries a status different
from the stored one and the update violates no username/email unique
constraint, then for every user id the number of `status_update`
notifications created for it is exactly 1 when that id is a distinct other
user sharing at least one room with the subject (regardless of how many rooms
they share) and 0 otherwise; if the status is absent or equal to the stored
one, no notification at all is created (whether or not the update itself is
rejected by a unique constraint); and a call that does violate a unique
constraint fails with the persistence error and creates no notification. -/
theorem updateUser_statusFanout (db : DB) (input : UpdateUserInput) (cur : User)
    (hpk : (db.users.map User.id).Nodup)
    (hfind : db.users.find? (fun u => u.id == input.id) = some cur) :
    (∀ s, input.status = some s → s ≠ cur.status →
      uniqueViolation db input = false →
      ∀ uid, (newNotifs db (updateUser db input)).countP
          (fun n => n.type == NotifType.status_update && n.user_id == uid)
        = if sharesRoomWith db input.id uid then 1 else 0) ∧
    ((input.status = none ∨ input.status = some cur.status) →
      newNotifs db (updateUser db input) = []) ∧
    (uniqueViolation db input = true →
      updateUser db input =
          .error (.persistence "duplicate key value violates unique constraint") ∧
        newNotifs db (updateUser db input) = []) := by
  have hcurid : cur.id = input.id := by
    have h := List.find?_some (p := fun u : User => u.id == input.id) hfind
    simpa using h
  have herr : uniqueViolation db input = true →
      updateUser db input =
        .error (.persistence "duplicate key value violates unique constraint") := by
    intro huv
    simp only [updateUser]
    rw [hfind, huv]
    simp
  refine ⟨?_, ?_, ?_⟩
  · intro s hs hne huniq uid
    have hchanged : statusChanged input cur.status = true := by
      simp [statusChanged, hs, hne]
    rw [updateUser_eq db input cur hfind huniq, if_pos hchanged]
    have hnew : newNotifs db
        (Except.ok (applyUserUpdate input db.now cur,
          { db with users := db.users.map (applyUserUpdate input db.now),
                    pushNotifications := db.pushNotifications ++
                      statusNotifs
                        { db with users :=
                            db.users.map (applyUserUpdate input db.now) }
                        (applyUserUpdate input db.now cur) cur.status }) :
          Except ChatError (User × DB))
        = statusNotifs
            { db with users := db.users.map (applyUserUpdate input db.now) }
            (applyUserUpdate input db.now cur) cur.status := by
      simp only [newNotifs, List.drop_left]
    rw [hnew]
    have hpk1 : ((db.users.map (applyUserUpdate input db.now)).map User.id).Nodup := by
      rw [map_id_applyUserUpdate]
      exact hpk
    rw [countP_statusNotifs _ _ _ _ hpk1]
    have huuid : (applyUserUpdate input db.now cur).id = input.id := by
      rw [applyUserUpdate_id, hcurid]
    rw [huuid, sharesRoomWith_mapUsers]
  · intro hcase
    cases huv : uniqueViolation db input with
    | true => rw [herr huv]; rfl
    | false =>
      have hchanged : statusChanged input cur.status = false := by
        rcases hcase with h | h
        · simp [statusChanged, h]
        · simp [statusChanged, h]
      rw [updateUser_eq db input cur hfind huv, hchanged]
      simp [newNotifs, List.drop_length]
  · intro huv
    refine ⟨herr huv, ?_⟩
    rw [herr huv]
    rfl

theorem updateUser_statusFanout_witness :
    ((newNotifs w2DB (updateUser w2DB w2In)).countP
        (fun n => n.type == NotifType.status_update && n.user_id == 2) =
      if sharesRoomWith w2DB w2In.id 2 then 1 else 0) ∧
    ((newNotifs w2DB (updateUser w2DB w2In)).countP
        (fun n => n.type == NotifType.status_update && n.user_id == 3) =
      if sharesRoomWith w2DB w2In.id 3 then 1 else 0) ∧
    updateUser w2DB w2InBad =
      .error (.persistence "duplicate key value violates unique constraint") :=
  ⟨(updateUser_statusFanout w2DB w2In uAlice (by decide) (by decide)).1
      UserStatus.online (by decide) (by decide) (by decide) 2,
    (updateUser_statusFanout w2DB w2In uAlice (by decide) (by decide)).1
      UserStatus.online (by decide) (by decide) (by decide) 3,
    ((updateUser_statusFanout w2DB w2InBad uAlice (by decide) (by decide)).2.2
      (by decide)).1⟩

end Chat

